import Mathlib

/-!
Verification development for the platform-core webhook subsystem.

The definitions below shallowly embed the webhook data model of
`src/app/modules/webhooks/models.py`, the helper functions of
`src/app/utils/common.py`, and the webhook delivery lifecycle
(Subscription Index, Delivery Dispatcher, Retry Scheduler, Endpoint
Health Tracker).  The lifecycle components have no source file under
`src/`, so they are modelled from the specification, as marked in the
doc comment of each such definition.  Database timestamps are modelled
as natural numbers, database integer columns as `Nat`/`Int`, nullable
columns as `Option`, and JSON columns as the structured value type
`Json` below (spec section 9: a tagged union of
null/bool/number/string/array/object).
-/

namespace PlatformCore

/-- Structured JSON value: tagged union of null, bool, number, string,
array and object (object as an association list of fields). -/
inductive Json where
  | null : Json
  | bool (b : Bool) : Json
  | num (n : Int) : Json
  | str (s : String) : Json
  | arr (elems : List Json) : Json
  | obj (fields : List (String × Json)) : Json

mutual

/-- Structural equality test on JSON values. -/
def Json.beq : Json → Json → Bool
  | .null, .null => true
  | .bool a, .bool b => a == b
  | .num a, .num b => a == b
  | .str a, .str b => a == b
  | .arr xs, .arr ys => Json.beqArr xs ys
  | .obj xs, .obj ys => Json.beqObj xs ys
  | _, _ => false

/-- Elementwise equality of JSON arrays. -/
def Json.beqArr : List Json → List Json → Bool
  | [], [] => true
  | x :: xs, y :: ys => Json.beq x y && Json.beqArr xs ys
  | _, _ => false

/-- Fieldwise equality of JSON objects (order-sensitive, as serialized). -/
def Json.beqObj : List (String × Json) → List (String × Json) → Bool
  | [], [] => true
  | (k, v) :: xs, (l, w) :: ys => k == l && Json.beq v w && Json.beqObj xs ys
  | _, _ => false

end

/-- The statuses of `WebhookStatus` in `models.py` (endpoint statuses). -/
inductive WebhookStatus where
  | active : WebhookStatus
  | inactive : WebhookStatus
  | failed : WebhookStatus
deriving DecidableEq

/-- The string value stored for each `WebhookStatus` member. -/
def WebhookStatus.value : WebhookStatus → String
  | .active => "active"
  | .inactive => "inactive"
  | .failed => "failed"

/-- The statuses of `WebhookDeliveryStatus` in `models.py`. -/
inductive WebhookDeliveryStatus where
  | pending : WebhookDeliveryStatus
  | success : WebhookDeliveryStatus
  | failed : WebhookDeliveryStatus
  | retrying : WebhookDeliveryStatus
deriving DecidableEq

/-- The string value stored for each `WebhookDeliveryStatus` member. -/
def WebhookDeliveryStatus.value : WebhookDeliveryStatus → String
  | .pending => "pending"
  | .success => "success"
  | .failed => "failed"
  | .retrying => "retrying"

/-- Whether a string is one of the three endpoint statuses. -/
def isWebhookStatusValue (s : String) : Bool :=
  s == "active" || s == "inactive" || s == "failed"

/-- Whether a string is one of the four delivery statuses. -/
def isDeliveryStatusValue (s : String) : Bool :=
  s == "pending" || s == "success" || s == "failed" || s == "retrying"

/-- Row of the `webhook_endpoints` table (`WebhookEndpoint` in `models.py`). -/
structure WebhookEndpoint where
  id : Nat
  name : String
  url : String
  description : Option String := none
  secret : Option String := none
  status : String := WebhookStatus.active.value
  created_at : Nat := 0
  updated_at : Nat := 0
  created_by : Option String := none
  headers : Option (List (String × String)) := none
  retry_count : Nat := 3
  timeout_seconds : Nat := 5

/-- Row of the `webhook_subscriptions` table (`WebhookSubscription` in
`models.py`); `filter_conditions` is a nullable JSON mapping of field
names to expected values. -/
structure WebhookSubscription where
  id : Nat
  endpoint_id : Nat
  event_type : String
  filter_conditions : Option (List (String × Json)) := none
  created_at : Nat := 0

/-- Row of the `webhook_deliveries` table (`WebhookDelivery` in `models.py`). -/
structure WebhookDelivery where
  id : Nat
  endpoint_id : Nat
  event_type : String
  payload : List (String × Json)
  request_headers : Option (List (String × String)) := none
  response_status : Option Int := none
  response_body : Option String := none
  success : Bool := false
  attempt_count : Nat := 1
  created_at : Nat := 0
  completed_at : Option Nat := none
  next_retry_at : Option Nat := none

/-- Row of the `webhook_events` table (`WebhookEvent` in `models.py`). -/
structure WebhookEvent where
  id : Nat
  event_type : String
  payload : List (String × Json)
  status : String := "pending"
  target_url : String
  retry_count : Nat := 0
  last_attempt : Option Nat := none
  next_retry : Option Nat := none
  response_code : Option Int := none
  response_body : Option String := none
  error_message : Option String := none
  created_at : Nat := 0

/-- The `WebhookEndpointCreate` request schema of `models.py`: optional
fields carry pydantic defaults `retry_count=3`, `timeout_seconds=5`,
and no `status` field exists on creation. -/
structure WebhookEndpointCreate where
  name : String
  url : String
  description : Option String := none
  secret : Option String := none
  headers : Option (List (String × String)) := none
  retry_count : Option Nat := some 3
  timeout_seconds : Option Nat := some 5

/-- The `WebhookEndpointUpdate` request schema of `models.py`: every
field optional; `status` is typed `Optional[WebhookStatus]`, so an
update can only carry one of the three enum statuses. -/
structure WebhookEndpointUpdate where
  name : Option String := none
  url : Option String := none
  description : Option String := none
  secret : Option String := none
  status : Option WebhookStatus := none
  headers : Option (List (String × String)) := none
  retry_count : Option Nat := none
  timeout_seconds : Option Nat := none

/-- The `WebhookEventUpdate` request schema of `models.py`: every field
optional; `status` is typed `Optional[str]`, an unconstrained string. -/
structure WebhookEventUpdate where
  status : Option String := none
  retry_count : Option Nat := none
  last_attempt : Option Nat := none
  next_retry : Option Nat := none
  response_code : Option Int := none
  response_body : Option String := none
  error_message : Option String := none

/-- Creating an endpoint row from a `WebhookEndpointCreate` request:
the schema has no `status` field, so the column default
`WebhookStatus.ACTIVE.value` applies; `retry_count`/`timeout_seconds`
fall back to the column defaults 3 and 5 when absent. -/
def mkWebhookEndpoint (c : WebhookEndpointCreate) (id now : Nat)
    (creator : Option String) : WebhookEndpoint :=
  { id := id
    name := c.name
    url := c.url
    description := c.description
    secret := c.secret
    status := WebhookStatus.active.value
    created_at := now
    updated_at := now
    created_by := creator
    headers := c.headers
    retry_count := c.retry_count.getD 3
    timeout_seconds := c.timeout_seconds.getD 5 }

/-- Modelled from the spec: the update API applies every field present
in a `WebhookEndpointUpdate` to the endpoint row and leaves absent
fields unchanged (the service applying the schema is not under `src/`;
the schema itself is, and types `status` as `Optional[WebhookStatus]`). -/
def applyEndpointUpdate (u : WebhookEndpointUpdate) (e : WebhookEndpoint)
    (now : Nat) : WebhookEndpoint :=
  { e with
    name := u.name.getD e.name
    url := u.url.getD e.url
    description := match u.description with | some d => some d | none => e.description
    secret := match u.secret with | some s => some s | none => e.secret
    status := match u.status with | some s => s.value | none => e.status
    headers := match u.headers with | some h => some h | none => e.headers
    retry_count := u.retry_count.getD e.retry_count
    timeout_seconds := u.timeout_seconds.getD e.timeout_seconds
    updated_at := now }

/-- Modelled from the spec: the update API applies every field present
in a `WebhookEventUpdate` to the event row (the service applying the
schema is not under `src/`; the schema itself is, and types `status` as
`Optional[str]`, so any string can be stored). -/
def applyEventUpdate (u : WebhookEventUpdate) (e : WebhookEvent) : WebhookEvent :=
  { e with
    status := u.status.getD e.status
    retry_count := u.retry_count.getD e.retry_count
    last_attempt := match u.last_attempt with | some t => some t | none => e.last_attempt
    next_retry := match u.next_retry with | some t => some t | none => e.next_retry
    response_code := match u.response_code with | some c => some c | none => e.response_code
    response_body := match u.response_body with | some b => some b | none => e.response_body
    error_message := match u.error_message with | some m => some m | none => e.error_message }

/-- Modelled from the spec: the Endpoint Health Tracker demotes an
endpoint to `status = failed` after sustained failure (section 4.4; the
tracker's source is not under `src/`). -/
def healthTrackerDisable (e : WebhookEndpoint) : WebhookEndpoint :=
  { e with status := WebhookStatus.failed.value }

/-- The endpoint states reachable through the modelled lifecycle:
created via `WebhookEndpointCreate`, mutated via `WebhookEndpointUpdate`,
or demoted by the Health Tracker. -/
inductive EndpointReachable : WebhookEndpoint → Prop where
  | create (c : WebhookEndpointCreate) (id now : Nat) (creator : Option String) :
      EndpointReachable (mkWebhookEndpoint c id now creator)
  | update (u : WebhookEndpointUpdate) (now : Nat) (e : WebhookEndpoint) :
      EndpointReachable e → EndpointReachable (applyEndpointUpdate u e now)
  | disable (e : WebhookEndpoint) :
      EndpointReachable e → EndpointReachable (healthTrackerDisable e)

/-- Modelled from the spec: filter evaluation (section 4.1).  A condition
is a mapping of field names to expected values; a field absent from the
payload makes the condition fail (no match), never an error. -/
def matchesFilter (conds : List (String × Json)) (payload : List (String × Json)) : Bool :=
  conds.all fun kv =>
    match payload.lookup kv.1 with
    | none => false
    | some pv => Json.beq pv kv.2

/-- Modelled from the spec: whether a subscription matches a payload; a
missing filter condition always matches. -/
def subscriptionMatches (sub : WebhookSubscription) (payload : List (String × Json)) : Bool :=
  match sub.filter_conditions with
  | none => true
  | some conds => matchesFilter conds payload

/-- The persistent store seen by the webhook core: the three entities
of spec section 3, with an event log (`webhook_events`). -/
structure WebhookDB where
  endpoints : List WebhookEndpoint
  subscriptions : List WebhookSubscription
  deliveries : List WebhookDelivery
  events : List WebhookEvent := []

/-- Modelled from the spec: `resolve(event_type, payload)` of the
Subscription Index (section 4.1) — every active endpoint subscribed to
the event type whose filter condition (if present) evaluates true. -/
def resolve (db : WebhookDB) (event_type : String)
    (payload : List (String × Json)) : List (WebhookEndpoint × WebhookSubscription) :=
  (db.subscriptions.filter fun sub =>
      sub.event_type == event_type && subscriptionMatches sub payload).filterMap
    fun sub =>
      match db.endpoints.find? fun e =>
          e.id == sub.endpoint_id && e.status == WebhookStatus.active.value with
      | some ep => some (ep, sub)
      | none => none

/-- Modelled from the spec: the merged delivery record of spec section 3
(DeliveryAttempt, "aka webhook event/delivery record"), carrying the
fields the Dispatcher and Retry Scheduler read and write.  Field
defaults follow the columns of `models.py`: `status` defaults to
`pending` (`WebhookEvent.status`), `attempt_count` to 1
(`WebhookDelivery.attempt_count`). -/
structure DeliveryAttempt where
  endpoint_id : Nat
  event_type : String
  payload : List (String × Json)
  status : String := "pending"
  attempt_count : Nat := 1
  created_at : Nat := 0
  last_attempt : Option Nat := none
  next_retry_at : Option Nat := none
  completed_at : Option Nat := none
  response_code : Option Int := none
  response_body : Option String := none
  error_message : Option String := none

/-- Modelled from the spec: the Dispatcher creates one DeliveryAttempt
record per matching subscription, with `status = pending` and
`attempt_count = 1` (section 4.2 step 2). -/
def mkDeliveryAttempt (ep : WebhookEndpoint) (event_type : String)
    (payload : List (String × Json)) (now : Nat) : DeliveryAttempt :=
  { endpoint_id := ep.id
    event_type := event_type
    payload := payload
    status := WebhookDeliveryStatus.pending.value
    attempt_count := 1
    created_at := now }

/-- Modelled from the spec: `dispatch(event_type, payload)` resolves the
matching subscriptions and creates one fresh DeliveryAttempt per match
(section 4.2 steps 1-2; the network send is the external collaborator). -/
def dispatch (db : WebhookDB) (event_type : String)
    (payload : List (String × Json)) (now : Nat) : List DeliveryAttempt :=
  (resolve db event_type payload).map fun m =>
    mkDeliveryAttempt m.1 event_type payload now

/-- Modelled from the spec: the exponential backoff delay for attempt
`k` — `base * 2 ^ (k - 1)` capped at `maxDelay` (section 4.3). -/
def backoff (base maxDelay k : Nat) : Nat :=
  min (base * 2 ^ (k - 1)) maxDelay

/-- Modelled from the spec: `on_failure(attempt)` of the Retry Scheduler
(section 4.3).  Below the retry budget: status `retrying`, attempt count
incremented, `next_retry_at = now + backoff(attempt_count)` with the
already-incremented count.  At the budget: terminal `failed`,
`completed_at = now`, `next_retry_at` cleared, and exactly one failure
outcome reported to the Health Tracker.  The second component lists the
`record_outcome` success flags reported. -/
def on_failure (base maxDelay : Nat) (ep : WebhookEndpoint) (now : Nat)
    (d : DeliveryAttempt) : DeliveryAttempt × List Bool :=
  if d.attempt_count < ep.retry_count then
    ({ d with
        status := WebhookDeliveryStatus.retrying.value
        attempt_count := d.attempt_count + 1
        next_retry_at := some (now + backoff base maxDelay (d.attempt_count + 1)) },
      [])
  else
    ({ d with
        status := WebhookDeliveryStatus.failed.value
        completed_at := some now
        next_retry_at := none },
      [false])

/-- Modelled from the spec: a successful attempt — status `success`,
response stored, `completed_at` set, `next_retry_at` cleared, one
success outcome reported to the Health Tracker (section 4.2 step 5). -/
def on_success (now : Nat) (code : Int) (body : String)
    (d : DeliveryAttempt) : DeliveryAttempt × List Bool :=
  ({ d with
      status := WebhookDeliveryStatus.success.value
      response_code := some code
      response_body := some body
      completed_at := some now
      next_retry_at := none },
    [true])

/-- Modelled from the spec: a delivery whose every send fails — the
Retry Scheduler is applied after each failed send until the attempt is
terminal.  Returns the final record and the concatenated Health Tracker
reports; `fuel` bounds the recursion. -/
def runAllFailing (base maxDelay : Nat) (ep : WebhookEndpoint) (now : Nat) :
    Nat → DeliveryAttempt → DeliveryAttempt × List Bool
  | 0, d => (d, [])
  | fuel + 1, d =>
    if (on_failure base maxDelay ep now d).1.status = WebhookDeliveryStatus.failed.value then
      on_failure base maxDelay ep now d
    else
      ((runAllFailing base maxDelay ep now fuel (on_failure base maxDelay ep now d).1).1,
        (on_failure base maxDelay ep now d).2
          ++ (runAllFailing base maxDelay ep now fuel (on_failure base maxDelay ep now d).1).2)

/-- Deleting an endpoint row.  Both `WebhookSubscription.endpoint_id`
and `WebhookDelivery.endpoint_id` are declared
`ForeignKey(..., ondelete="CASCADE")` in `models.py`, so the store also
removes every subscription and delivery row referencing the deleted
endpoint. -/
def deleteEndpoint (db : WebhookDB) (eid : Nat) : WebhookDB :=
  { endpoints := db.endpoints.filter fun e => e.id != eid
    subscriptions := db.subscriptions.filter fun s => s.endpoint_id != eid
    deliveries := db.deliveries.filter fun d => d.endpoint_id != eid
    events := db.events }

/-- Referential integrity of the store: every subscription and delivery
references an existing endpoint row. -/
def WebhookDB.consistent (db : WebhookDB) : Prop :=
  (∀ s ∈ db.subscriptions, ∃ e ∈ db.endpoints, e.id = s.endpoint_id) ∧
  (∀ d ∈ db.deliveries, ∃ e ∈ db.endpoints, e.id = d.endpoint_id)

/-- A sample active endpoint (column defaults), used by concrete witnesses. -/
def sampleEndpoint : WebhookEndpoint :=
  { id := 1, name := "alerts", url := "http://example.com/hook" }

/-- A sample subscription of `sampleEndpoint` to `audit.event`. -/
def sampleSubscription : WebhookSubscription :=
  { id := 1, endpoint_id := 1, event_type := "audit.event" }

/-- A sample store holding the sample endpoint and subscription. -/
def sampleDB : WebhookDB :=
  { endpoints := [sampleEndpoint]
    subscriptions := [sampleSubscription]
    deliveries := [{ id := 1, endpoint_id := 1, event_type := "audit.event", payload := [] }] }

/-- A fresh sample delivery attempt for the sample endpoint. -/
def sampleAttempt : DeliveryAttempt :=
  { endpoint_id := 1, event_type := "audit.event", payload := [] }

/-! ## JSON parsing (`safe_parse_json` of `src/app/utils/common.py`) -/

/-- Drop leading JSON whitespace characters. -/
def skipWs : List Char → List Char
  | c :: cs => if c = ' ' || c = '\t' || c = '\n' || c = '\r' then skipWs cs else c :: cs
  | [] => []

/-- Split off the longest prefix of decimal digits. -/
def takeDigits : List Char → List Char × List Char
  | [] => ([], [])
  | c :: cs =>
    if c.isDigit then
      match takeDigits cs with
      | (ds, rest) => (c :: ds, rest)
    else ([], c :: cs)

/-- The number denoted by a list of decimal digits. -/
def digitsToNat (ds : List Char) : Nat :=
  ds.foldl (fun a c => a * 10 + (c.toNat - 48)) 0

/-- Consume an expected literal character. -/
def expectChar (c : Char) : List Char → Option (List Char)
  | x :: r => if x = c then some r else none
  | [] => none

/-- Consume an expected literal suffix of a keyword. -/
def expectLit (lit : List Char) (cs : List Char) : Option (List Char) :=
  if lit.isPrefixOf cs then some (cs.drop lit.length) else none

/-- Value of a hexadecimal digit. -/
def hexVal (c : Char) : Option Nat :=
  if '0' ≤ c ∧ c ≤ '9' then some (c.toNat - 48)
  else if 'a' ≤ c ∧ c ≤ 'f' then some (c.toNat - 87)
  else if 'A' ≤ c ∧ c ≤ 'F' then some (c.toNat - 55)
  else none

/-- Body of a JSON string after the opening quote, handling the escape
sequences of the JSON grammar; rejects raw control characters. -/
def parseStringBody : Nat → List Char → Option (List Char × List Char)
  | 0, _ => none
  | _ + 1, [] => none
  | fuel + 1, c :: rest =>
    if c = '"' then some ([], rest)
    else if c = '\\' then
      match rest with
      | [] => none
      | e :: r2 =>
        let esc : Option (Char × List Char) :=
          if e = '"' then some ('"', r2)
          else if e = '\\' then some ('\\', r2)
          else if e = '/' then some ('/', r2)
          else if e = 'b' then some (Char.ofNat 8, r2)
          else if e = 'f' then some (Char.ofNat 12, r2)
          else if e = 'n' then some ('\n', r2)
          else if e = 'r' then some ('\r', r2)
          else if e = 't' then some ('\t', r2)
          else if e = 'u' then
            match r2 with
            | h1 :: h2 :: h3 :: h4 :: r3 =>
              match hexVal h1, hexVal h2, hexVal h3, hexVal h4 with
              | some a, some b, some c2, some d2 =>
                some (Char.ofNat (((a * 16 + b) * 16 + c2) * 16 + d2), r3)
              | _, _, _, _ => none
            | _ => none
          else none
        match esc with
        | none => none
        | some (ch, r3) =>
          match parseStringBody fuel r3 with
          | some (body, r4) => some (ch :: body, r4)
          | none => none
    else if c.toNat < 32 then none
    else
      match parseStringBody fuel rest with
      | some (body, r3) => some (c :: body, r3)
      | none => none

/-- A JSON number.  Model of the stdlib collaborator: integer numbers
(optional minus sign, no redundant leading zero); fractional and
exponent forms — which `json.loads` parses to floats — are outside this
integer-valued model. -/
def parseNumber (cs : List Char) : Option (Json × List Char) :=
  match cs with
  | '-' :: r =>
    match takeDigits r with
    | ([], _) => none
    | (ds, rest) =>
      if 1 < ds.length ∧ ds.headD '0' = '0' then none
      else some (Json.num (-(digitsToNat ds : Int)), rest)
  | _ =>
    match takeDigits cs with
    | ([], _) => none
    | (ds, rest) =>
      if 1 < ds.length ∧ ds.headD '0' = '0' then none
      else some (Json.num (digitsToNat ds : Int), rest)

mutual

/-- Modelled from the stdlib collaborator `json.loads`: recursive
descent over the JSON grammar, fuel-bounded. -/
def parseValue : Nat → List Char → Option (Json × List Char)
  | 0, _ => none
  | fuel + 1, cs =>
    match skipWs cs with
    | [] => none
    | c :: rest =>
      if c = '\x7b' then parseObjBody fuel rest
      else if c = '[' then parseArrBody fuel rest
      else if c = '"' then
        match parseStringBody fuel rest with
        | some (body, r) => some (.str (String.mk body), r)
        | none => none
      else if c = 't' then
        match expectLit ['r', 'u', 'e'] rest with
        | some r => some (.bool true, r)
        | none => none
      else if c = 'f' then
        match expectLit ['a', 'l', 's', 'e'] rest with
        | some r => some (.bool false, r)
        | none => none
      else if c = 'n' then
        match expectLit ['u', 'l', 'l'] rest with
        | some r => some (.null, r)
        | none => none
      else parseNumber (c :: rest)

/-- Array contents after the opening bracket. -/
def parseArrBody : Nat → List Char → Option (Json × List Char)
  | 0, _ => none
  | fuel + 1, cs =>
    match skipWs cs with
    | ']' :: r => some (.arr [], r)
    | cs2 =>
      match parseValue fuel cs2 with
      | none => none
      | some (v, r) =>
        match parseArrTail fuel r with
        | some (vs, r2) => some (.arr (v :: vs), r2)
        | none => none

/-- Remaining array elements, each preceded by a comma. -/
def parseArrTail : Nat → List Char → Option (List Json × List Char)
  | 0, _ => none
  | fuel + 1, cs =>
    match skipWs cs with
    | ']' :: r => some ([], r)
    | ',' :: r =>
      match parseValue fuel r with
      | none => none
      | some (v, r2) =>
        match parseArrTail fuel r2 with
        | some (vs, r3) => some (v :: vs, r3)
        | none => none
    | _ => none

/-- Object contents after the opening brace. -/
def parseObjBody : Nat → List Char → Option (Json × List Char)
  | 0, _ => none
  | fuel + 1, cs =>
    match skipWs cs with
    | '\x7d' :: r => some (.obj [], r)
    | cs2 =>
      match parseMember fuel cs2 with
      | none => none
      | some (kv, r) =>
        match parseObjTail fuel r with
        | some (kvs, r2) => some (.obj (kv :: kvs), r2)
        | none => none

/-- Remaining object members, each preceded by a comma. -/
def parseObjTail : Nat → List Char → Option (List (String × Json) × List Char)
  | 0, _ => none
  | fuel + 1, cs =>
    match skipWs cs with
    | '\x7d' :: r => some ([], r)
    | ',' :: r =>
      match parseMember fuel r with
      | none => none
      | some (kv, r2) =>
        match parseObjTail fuel r2 with
        | some (kvs, r3) => some (kv :: kvs, r3)
        | none => none
    | _ => none

/-- One `"key": value` object member. -/
def parseMember : Nat → List Char → Option ((String × Json) × List Char)
  | 0, _ => none
  | fuel + 1, cs =>
    match skipWs cs with
    | '"' :: r =>
      match parseStringBody fuel r with
      | none => none
      | some (key, r2) =>
        match skipWs r2 with
        | ':' :: r3 =>
          match parseValue fuel r3 with
          | none => none
          | some (v, r4) => some ((String.mk key, v), r4)
        | _ => none
    | _ => none

end

/-- Modelled from the stdlib collaborator: `json.loads` — parse one
JSON document and require only trailing whitespace after it; `none`
models a raised `JSONDecodeError`. -/
def parseJson (s : String) : Option Json :=
  match parseValue (2 * s.length + 8) s.data with
  | some (v, rest) => if skipWs rest = [] then some v else none
  | none => none

/-- `safe_parse_json` of `src/app/utils/common.py`: return the parsed
value; on a parse failure return the supplied default when it is not
`None`, else an empty object. -/
def safe_parse_json (json_str : String) (default : Option Json := none) : Json :=
  match parseJson json_str with
  | some v => v
  | none =>
    match default with
    | some d => d
    | none => .obj []

/-! ## Datetimes (`serialize_datetime` / `parse_datetime` of
`src/app/utils/common.py`) -/

/-- Model of a Python `datetime`: calendar fields plus an optional
timezone offset in whole minutes (`None` for a naive datetime). -/
structure PyDatetime where
  year : Nat
  month : Nat
  day : Nat
  hour : Nat := 0
  minute : Nat := 0
  second : Nat := 0
  microsecond : Nat := 0
  tzOffsetMinutes : Option Int := none
deriving DecidableEq

/-- Leap-year rule of the proleptic Gregorian calendar. -/
def isLeapYear (y : Nat) : Bool :=
  (y % 4 == 0 && y % 100 != 0) || y % 400 == 0

/-- Days in a month of a given year. -/
def daysInMonth (y m : Nat) : Nat :=
  if m = 2 then (if isLeapYear y then 29 else 28)
  else if m = 4 ∨ m = 6 ∨ m = 9 ∨ m = 11 then 30
  else 31

/-- The field ranges Python's `datetime` constructor enforces
(`MINYEAR..MAXYEAR`, valid month/day, time fields, and a timezone
offset strictly between -24h and +24h). -/
def PyDatetime.valid (d : PyDatetime) : Bool :=
  decide (1 ≤ d.year) && decide (d.year ≤ 9999) &&
  decide (1 ≤ d.month) && decide (d.month ≤ 12) &&
  decide (1 ≤ d.day) && decide (d.day ≤ daysInMonth d.year d.month) &&
  decide (d.hour ≤ 23) && decide (d.minute ≤ 59) && decide (d.second ≤ 59) &&
  decide (d.microsecond ≤ 999999) &&
  (match d.tzOffsetMinutes with
   | none => true
   | some off => decide (-1440 < off) && decide (off < 1440))

/-- Two-digit zero-padded decimal rendering (of the value modulo 100;
every caller passes a value below 100). -/
def pad2Chars (n : Nat) : List Char :=
  [Char.ofNat (48 + n / 10 % 10), Char.ofNat (48 + n % 10)]

/-- The fractional-seconds part of `datetime.isoformat`: empty when
`microsecond` is zero, else a dot and six zero-padded digits. -/
def fracChars (us : Nat) : List Char :=
  if us = 0 then []
  else '.' :: (pad2Chars (us / 10000) ++ (pad2Chars (us / 100 % 100) ++ pad2Chars (us % 100)))

/-- The UTC-offset suffix of `datetime.isoformat`: empty for a naive
datetime, else a sign and `HH:MM`. -/
def offsetChars (off : Option Int) : List Char :=
  match off with
  | none => []
  | some o =>
    if o < 0 then
      '-' :: (pad2Chars ((-o).toNat / 60) ++ ':' :: pad2Chars ((-o).toNat % 60))
    else
      '+' :: (pad2Chars (o.toNat / 60) ++ ':' :: pad2Chars (o.toNat % 60))

/-- `datetime.isoformat()`:
`YYYY-MM-DDTHH:MM:SS[.ffffff][+HH:MM]` — seconds always present,
microseconds only when nonzero, offset only when aware. -/
def isoChars (d : PyDatetime) : List Char :=
  pad2Chars (d.year / 100) ++ (pad2Chars (d.year % 100) ++
    '-' :: (pad2Chars d.month ++ '-' :: (pad2Chars d.day ++
      'T' :: (pad2Chars d.hour ++ ':' :: (pad2Chars d.minute ++
        ':' :: (pad2Chars d.second ++
          (fracChars d.microsecond ++ offsetChars d.tzOffsetMinutes)))))))

/-- `serialize_datetime` of `src/app/utils/common.py`: the ISO format
string of a datetime (the non-datetime `TypeError` branch is outside
this typed embedding). -/
def serialize_datetime (d : PyDatetime) : String :=
  String.mk (isoChars d)

/-- Read two decimal digits. -/
def parse2 : List Char → Option (Nat × List Char)
  | a :: b :: r =>
    if a.isDigit && b.isDigit then
      some ((a.toNat - 48) * 10 + (b.toNat - 48), r)
    else none
  | _ => none

/-- Read six decimal digits of fractional seconds (the width
`datetime.isoformat` emits). -/
def parse6 (cs : List Char) : Option (Nat × List Char) :=
  match parse2 cs with
  | none => none
  | some (a, r1) =>
    match parse2 r1 with
    | none => none
    | some (b, r2) =>
      match parse2 r2 with
      | none => none
      | some (c, r3) => some (a * 10000 + b * 100 + c, r3)

/-- Read an optional trailing UTC offset `±HH:MM`; an empty remainder
means a naive datetime. -/
def parseOffset : List Char → Option (Option Int × List Char)
  | [] => some (none, [])
  | '+' :: r =>
    (match parse2 r with
     | none => none
     | some (oh, r1) =>
       match expectChar ':' r1 with
       | none => none
       | some r2 =>
         match parse2 r2 with
         | none => none
         | some (om, r3) =>
           if oh * 60 + om < 1440 then some (some (Int.ofNat (oh * 60 + om)), r3) else none)
  | '-' :: r =>
    (match parse2 r with
     | none => none
     | some (oh, r1) =>
       match expectChar ':' r1 with
       | none => none
       | some r2 =>
         match parse2 r2 with
         | none => none
         | some (om, r3) =>
           if oh * 60 + om < 1440 then some (some (-(Int.ofNat (oh * 60 + om))), r3) else none)
  | _ => none

/-- Range-check the parsed fields exactly as the `datetime` constructor
does, returning `none` for the `ValueError` case. -/
def mkValidDatetime (y mo dy hh mi ss us : Nat) (off : Option Int) : Option PyDatetime :=
  let dt : PyDatetime :=
    { year := y, month := mo, day := dy, hour := hh, minute := mi,
      second := ss, microsecond := us, tzOffsetMinutes := off }
  if dt.valid then some dt else none

/-- Modelled from the stdlib collaborator `datetime.fromisoformat`:
`YYYY-MM-DD`, optionally a `T` or space separator and
`HH:MM[:SS[.ffffff]]`, optionally `±HH:MM`; `none` models a raised
`ValueError`. -/
def fromisoformat (cs : List Char) : Option PyDatetime :=
  match parse2 cs with
  | none => none
  | some (yh, r1) =>
  match parse2 r1 with
  | none => none
  | some (yl, r2) =>
  match expectChar '-' r2 with
  | none => none
  | some r3 =>
  match parse2 r3 with
  | none => none
  | some (mo, r4) =>
  match expectChar '-' r4 with
  | none => none
  | some r5 =>
  match parse2 r5 with
  | none => none
  | some (dy, r6) =>
  match r6 with
  | [] => mkValidDatetime (yh * 100 + yl) mo dy 0 0 0 0 none
  | sep :: r7 =>
    if sep = 'T' || sep = ' ' then
      match parse2 r7 with
      | none => none
      | some (hh, r8) =>
      match expectChar ':' r8 with
      | none => none
      | some r9 =>
      match parse2 r9 with
      | none => none
      | some (mi, r10) =>
      match r10 with
      | ':' :: r11 =>
        (match parse2 r11 with
         | none => none
         | some (ss, r12) =>
           match r12 with
           | '.' :: r13 =>
             (match parse6 r13 with
              | none => none
              | some (us, r14) =>
                match parseOffset r14 with
                | none => none
                | some (off, r15) =>
                  if r15 = [] then mkValidDatetime (yh * 100 + yl) mo dy hh mi ss us off
                  else none)
           | _ =>
             match parseOffset r12 with
             | none => none
             | some (off, r15) =>
               if r15 = [] then mkValidDatetime (yh * 100 + yl) mo dy hh mi ss 0 off
               else none)
      | _ =>
        match parseOffset r10 with
        | none => none
        | some (off, r15) =>
          if r15 = [] then mkValidDatetime (yh * 100 + yl) mo dy hh mi 0 0 off
          else none
    else none

/-- Python `str.replace('Z', '+00:00')` on a single-character pattern:
replace every `Z` by `+00:00`. -/
def replaceZ (s : String) : String :=
  String.mk (s.data.foldr
    (fun c acc => if c = 'Z' then '+' :: '0' :: '0' :: ':' :: '0' :: '0' :: acc else c :: acc)
    [])

/-- `parse_datetime` of `src/app/utils/common.py`: `None` for `None` or
an empty string, else `datetime.fromisoformat` on the string with `Z`
replaced by `+00:00`, with `None` for the `ValueError` case. -/
def parse_datetime (date_str : Option String) : Option PyDatetime :=
  match date_str with
  | none => none
  | some s => if s.isEmpty then none else fromisoformat (replaceZ s).data


/-! ## HMAC-SHA256 and the outbound webhook request -/

/-- Addition modulo `2 ^ 32`. -/
def add32 (a b : Nat) : Nat := (a + b) % 4294967296

/-- Right rotation of a 32-bit word by `k` places. -/
def rotr32 (k n : Nat) : Nat := n / 2 ^ k + n % 2 ^ k * 2 ^ (32 - k)

/-- Logical right shift of a 32-bit word by `k` places. -/
def shr32 (k n : Nat) : Nat := n / 2 ^ k

/-- Bitwise complement of a 32-bit word. -/
def not32 (n : Nat) : Nat := 4294967295 - n

/-- The SHA-256 choice function. -/
def chFn (x y z : Nat) : Nat := (x &&& y) ^^^ (not32 x &&& z)

/-- The SHA-256 majority function. -/
def majFn (x y z : Nat) : Nat := (x &&& y) ^^^ (x &&& z) ^^^ (y &&& z)

/-- The SHA-256 big sigma-0 function. -/
def bigSigma0 (x : Nat) : Nat := rotr32 2 x ^^^ rotr32 13 x ^^^ rotr32 22 x

/-- The SHA-256 big sigma-1 function. -/
def bigSigma1 (x : Nat) : Nat := rotr32 6 x ^^^ rotr32 11 x ^^^ rotr32 25 x

/-- The SHA-256 small sigma-0 function. -/
def smallSigma0 (x : Nat) : Nat := rotr32 7 x ^^^ rotr32 18 x ^^^ shr32 3 x

/-- The SHA-256 small sigma-1 function. -/
def smallSigma1 (x : Nat) : Nat := rotr32 17 x ^^^ rotr32 19 x ^^^ shr32 10 x

/-- The 64 SHA-256 round constants (FIPS 180-4). -/
def shaK : List Nat :=
  [1116352408, 1899447441, 3049323471, 3921009573,
   961987163, 1508970993, 2453635748, 2870763221,
   3624381080, 310598401, 607225278, 1426881987,
   1925078388, 2162078206, 2614888103, 3248222580,
   3835390401, 4022224774, 264347078, 604807628,
   770255983, 1249150122, 1555081692, 1996064986,
   2554220882, 2821834349, 2952996808, 3210313671,
   3336571891, 3584528711, 113926993, 338241895,
   666307205, 773529912, 1294757372, 1396182291,
   1695183700, 1986661051, 2177026350, 2456956037,
   2730485921, 2820302411, 3259730800, 3345764771,
   3516065817, 3600352804, 4094571909, 275423344,
   430227734, 506948616, 659060556, 883997877,
   958139571, 1322822218, 1537002063, 1747873779,
   1955562222, 2024104815, 2227730452, 2361852424,
   2428436474, 2756734187, 3204031479, 3329325298]

/-- The SHA-256 initial hash value (FIPS 180-4). -/
def shaH0 : List Nat :=
  [1779033703, 3144134277, 1013904242, 2773480762,
   1359893119, 2600822924, 528734635, 1541459225]

/-- Big-endian bytes of a number, fixed width. -/
def toBytesBE : Nat → Nat → List Nat
  | 0, _ => []
  | k + 1, n => toBytesBE k (n / 256) ++ [n % 256]

/-- Big-endian 32-bit words from a byte list. -/
def bytesToWordsBE : List Nat → List Nat
  | b0 :: b1 :: b2 :: b3 :: rest =>
    (((b0 * 256 + b1) * 256 + b2) * 256 + b3) :: bytesToWordsBE rest
  | _ => []

/-- Split a word list into chunks of sixteen words. -/
def chunkWords16 : Nat → List Nat → List (List Nat)
  | 0, _ => []
  | k + 1, ws => ws.take 16 :: chunkWords16 k (ws.drop 16)

/-- Extend a 16-word block to the 64-word message schedule, appending
`k` further words. -/
def extendSchedule : Nat → List Nat → List Nat
  | 0, ws => ws
  | k + 1, ws =>
    extendSchedule k (ws ++
      [add32 (add32 (smallSigma1 (ws.getD (ws.length - 2) 0)) (ws.getD (ws.length - 7) 0))
        (add32 (smallSigma0 (ws.getD (ws.length - 15) 0)) (ws.getD (ws.length - 16) 0))])

/-- One SHA-256 compression round on the eight-word working state. -/
def sha256Round : List Nat → Nat → Nat → List Nat
  | [a, b, c, d, e, f, g, h], k, w =>
    [add32 (add32 h (add32 (bigSigma1 e) (add32 (chFn e f g) (add32 k w))))
       (add32 (bigSigma0 a) (majFn a b c)),
     a, b, c,
     add32 d (add32 h (add32 (bigSigma1 e) (add32 (chFn e f g) (add32 k w)))),
     e, f, g]
  | s, _, _ => s

/-- Compress one 16-word block into the running hash value. -/
def sha256Compress (h : List Nat) (block : List Nat) : List Nat :=
  List.zipWith add32 h
    ((shaK.zip (extendSchedule 48 block)).foldl (fun st kw => sha256Round st kw.1 kw.2) h)

/-- Bytes of the 32-bit words of a hash value, big-endian. -/
def wordsToBytes : List Nat → List Nat
  | [] => []
  | w :: ws => toBytesBE 4 w ++ wordsToBytes ws

/-- SHA-256 of a byte list: pad to a multiple of 64 bytes with `0x80`,
zeros and the 64-bit big-endian bit length, then compress block by block. -/
def sha256Bytes (msg : List Nat) : List Nat :=
  wordsToBytes
    ((chunkWords16
        ((bytesToWordsBE (msg ++ 0x80 :: (List.replicate ((119 - msg.length % 64) % 64) 0 ++
            toBytesBE 8 (8 * msg.length)))).length / 16)
        (bytesToWordsBE (msg ++ 0x80 :: (List.replicate ((119 - msg.length % 64) % 64) 0 ++
            toBytesBE 8 (8 * msg.length))))).foldl sha256Compress shaH0)

/-- HMAC-SHA256 (RFC 2104): hash an over-long key, zero-pad to the
64-byte block size, and nest the inner and outer hashes. -/
def hmacSha256 (key msg : List Nat) : List Nat :=
  sha256Bytes
    (((if 64 < key.length then sha256Bytes key else key) ++
        List.replicate (64 - (if 64 < key.length then sha256Bytes key else key).length) 0).map
          (fun b => b ^^^ 0x5c) ++
      sha256Bytes
        (((if 64 < key.length then sha256Bytes key else key) ++
            List.replicate (64 - (if 64 < key.length then sha256Bytes key else key).length) 0).map
              (fun b => b ^^^ 0x36) ++ msg))

/-- A lowercase hexadecimal digit. -/
def hexDigit (n : Nat) : Char :=
  if n < 10 then Char.ofNat (48 + n) else Char.ofNat (87 + n)

/-- Lowercase hexadecimal characters of a byte list. -/
def toHexChars : List Nat → List Char
  | [] => []
  | b :: bs => hexDigit (b / 16) :: hexDigit (b % 16) :: toHexChars bs

/-- Lowercase hexadecimal encoding of a byte list. -/
def toHex (bytes : List Nat) : String := String.mk (toHexChars bytes)

/-- UTF-8 bytes of one character. -/
def utf8Char (c : Char) : List Nat :=
  if c.toNat < 128 then [c.toNat]
  else if c.toNat < 2048 then [192 + c.toNat / 64, 128 + c.toNat % 64]
  else if c.toNat < 65536 then
    [224 + c.toNat / 4096, 128 + c.toNat / 64 % 64, 128 + c.toNat % 64]
  else
    [240 + c.toNat / 262144, 128 + c.toNat / 4096 % 64, 128 + c.toNat / 64 % 64, 128 + c.toNat % 64]

/-- UTF-8 bytes of a character list. -/
def utf8Encode : List Char → List Nat
  | [] => []
  | c :: cs => utf8Char c ++ utf8Encode cs

/-- UTF-8 bytes of a string. -/
def strBytes (s : String) : List Nat := utf8Encode s.data

/-- The hex-encoded HMAC-SHA256 signature of a request body under an
endpoint secret. -/
def hmacSignature (secret body : String) : String :=
  toHex (hmacSha256 (strBytes secret) (strBytes body))

/-- The header carrying the webhook signature on outbound requests. -/
def signatureHeaderName : String := "X-Webhook-Signature"

/-- Modelled from the spec: the headers of the outbound HTTP POST
(sections 4.2 step 3 and 6; the Dispatcher source is not under `src/`):
the HMAC-SHA256 signature header exactly when a secret is configured,
the JSON content type, and the endpoint's custom headers. -/
def buildRequestHeaders (ep : WebhookEndpoint) (body : String) : List (String × String) :=
  (match ep.secret with
   | some secret => [(signatureHeaderName, hmacSignature secret body)]
   | none => []) ++ ("Content-Type", "application/json") :: ep.headers.getD []

/-! ## Theorems -/

/-- Helper: a delivery whose every send fails reaches the terminal record
(attempt count at the budget, status `failed`, `completed_at` set,
`next_retry_at` cleared) with exactly one Health Tracker failure report,
whenever the fuel covers the remaining retry budget. -/
theorem runAllFailing_terminal (base maxDelay : Nat) (ep : WebhookEndpoint) (now : Nat) :
    ∀ (fuel : Nat) (d : DeliveryAttempt), d.attempt_count ≤ ep.retry_count →
      ep.retry_count < d.attempt_count + fuel →
      runAllFailing base maxDelay ep now fuel d
        = ({ d with
             attempt_count := ep.retry_count
             status := WebhookDeliveryStatus.failed.value
             completed_at := some now
             next_retry_at := none }, [false]) := by
  intro fuel
  induction fuel with
  | zero => intro d h1 h2; omega
  | succ n ih =>
    intro d h1 h2
    by_cases hc : d.attempt_count < ep.retry_count
    · have hstep : on_failure base maxDelay ep now d
          = ({ d with
               status := WebhookDeliveryStatus.retrying.value
               attempt_count := d.attempt_count + 1
               next_retry_at := some (now + backoff base maxDelay (d.attempt_count + 1)) }, []) := by
        unfold on_failure
        rw [if_pos hc]
      have hrest := ih { d with
          status := WebhookDeliveryStatus.retrying.value
          attempt_count := d.attempt_count + 1
          next_retry_at := some (now + backoff base maxDelay (d.attempt_count + 1)) }
        (by simpa using hc) (by simp; omega)
      simp only [runAllFailing, hstep, hrest]
      simp [WebhookDeliveryStatus.value]
    · have heq : d.attempt_count = ep.retry_count := by omega
      have hstep : on_failure base maxDelay ep now d
          = ({ d with
               status := WebhookDeliveryStatus.failed.value
               completed_at := some now
               next_retry_at := none }, [false]) := by
        unfold on_failure
        rw [if_neg hc]
      simp only [runAllFailing, hstep]
      simp [heq]

/-- C2: the Retry Scheduler never pushes `attempt_count` past
`endpoint.retry_count`; a failure arriving with
`attempt_count = retry_count` yields the terminal record (status
`failed`, `completed_at = now`, `next_retry_at` cleared) and exactly one
terminal-failure report to the Health Tracker; and a delivery failing on
every send ends terminal with exactly one failure report overall. -/
theorem retry_scheduler_terminal_failure (base maxDelay : Nat) (ep : WebhookEndpoint)
    (now : Nat) (d : DeliveryAttempt) :
    (d.attempt_count ≤ ep.retry_count →
      (on_failure base maxDelay ep now d).1.attempt_count ≤ ep.retry_count) ∧
    (d.attempt_count = ep.retry_count →
      on_failure base maxDelay ep now d
        = ({ d with
             status := WebhookDeliveryStatus.failed.value
             completed_at := some now
             next_retry_at := none }, [false])) ∧
    (∀ fuel, d.attempt_count ≤ ep.retry_count → ep.retry_count < d.attempt_count + fuel →
      runAllFailing base maxDelay ep now fuel d
        = ({ d with
             attempt_count := ep.retry_count
             status := WebhookDeliveryStatus.failed.value
             completed_at := some now
             next_retry_at := none }, [false])) := by
  refine ⟨?_, ?_, ?_⟩
  · intro hle
    unfold on_failure
    by_cases hc : d.attempt_count < ep.retry_count
    · rw [if_pos hc]
      exact hc
    · rw [if_neg hc]
      exact hle
  · intro heq
    unfold on_failure
    rw [if_neg (by omega)]
  · intro fuel hle hlt
    exact runAllFailing_terminal base maxDelay ep now fuel d hle hlt

/-- Witness for `retry_scheduler_terminal_failure`: the sample attempt
against the sample endpoint (retry budget 3), failing on every send,
ends with exactly one Health Tracker failure report. -/
theorem retry_scheduler_terminal_failure_witness :
    (runAllFailing 1 60 sampleEndpoint 7 3 sampleAttempt).2 = [false] := by
  have h := (retry_scheduler_terminal_failure 1 60 sampleEndpoint 7 sampleAttempt).2.2 3
    (by decide) (by decide)
  rw [h]

/-- C3: below the retry budget the scheduler sets
`next_retry_at = now + backoff(new attempt count)` and status
`retrying`, where the backoff for attempt `k` is
`base * 2 ^ (k - 1)` capped at `maxDelay`; the backoff delay is
non-decreasing in the attempt number and never exceeds `maxDelay`. -/
theorem retry_backoff_monotone_capped (base maxDelay : Nat) (ep : WebhookEndpoint)
    (now : Nat) (d : DeliveryAttempt) (h : d.attempt_count < ep.retry_count) :
    (on_failure base maxDelay ep now d).1.next_retry_at
        = some (now + backoff base maxDelay (d.attempt_count + 1)) ∧
    (on_failure base maxDelay ep now d).1.status = WebhookDeliveryStatus.retrying.value ∧
    backoff base maxDelay (d.attempt_count + 1)
        = min (base * 2 ^ d.attempt_count) maxDelay ∧
    (∀ j k, j ≤ k → backoff base maxDelay j ≤ backoff base maxDelay k) ∧
    (∀ k, backoff base maxDelay k ≤ maxDelay) := by
  refine ⟨?_, ?_, ?_, ?_, ?_⟩
  · unfold on_failure
    rw [if_pos h]
  · unfold on_failure
    rw [if_pos h]
  · simp [backoff]
  · intro j k hjk
    unfold backoff
    exact min_le_min
      (Nat.mul_le_mul le_rfl (Nat.pow_le_pow_right (by norm_num) (Nat.sub_le_sub_right hjk 1)))
      le_rfl
  · intro k
    exact Nat.min_le_right _ _

/-- Witness for `retry_backoff_monotone_capped` at the sample attempt
(attempt count 1, retry budget 3, base 1, cap 60). -/
theorem retry_backoff_monotone_capped_witness :
    (on_failure 1 60 sampleEndpoint 100 sampleAttempt).1.next_retry_at
      = some (100 + backoff 1 60 2) :=
  (retry_backoff_monotone_capped 1 60 sampleEndpoint 100 sampleAttempt (by decide)).1

/-- C5: every DeliveryAttempt record the Dispatcher creates for a
matching subscription starts with status `pending` and
`attempt_count = 1`. -/
theorem dispatch_creates_pending_first_attempt (db : WebhookDB) (event_type : String)
    (payload : List (String × Json)) (now : Nat) :
    ∀ d ∈ dispatch db event_type payload now,
      d.status = WebhookDeliveryStatus.pending.value ∧ d.attempt_count = 1 := by
  intro d hd
  rcases List.mem_map.mp hd with ⟨m, -, rfl⟩
  exact ⟨rfl, rfl⟩

/-- Witness for `dispatch_creates_pending_first_attempt`: the one record
dispatched for `audit.event` on the sample store is pending with
attempt count 1. -/
theorem dispatch_creates_pending_first_attempt_witness :
    (mkDeliveryAttempt sampleEndpoint "audit.event" [] 5).status
        = WebhookDeliveryStatus.pending.value ∧
    (mkDeliveryAttempt sampleEndpoint "audit.event" [] 5).attempt_count = 1 :=
  dispatch_creates_pending_first_attempt sampleDB "audit.event" [] 5 _ (by
    have h : dispatch sampleDB "audit.event" [] 5
        = [mkDeliveryAttempt sampleEndpoint "audit.event" [] 5] := rfl
    rw [h]
    exact List.mem_singleton_self _)

/-- C6: filter evaluation is a total boolean function; a condition
naming a field absent from the payload evaluates to no match, a
condition expecting a different value than the payload carries evaluates
to no match, every subscription the index resolves did match, and the
spec scenario (`level: ERROR` against `level: INFO`) does not match. -/
theorem filter_eval_never_errors :
    (∀ (conds payload : List (String × Json)) (k : String) (v : Json),
        (k, v) ∈ conds → payload.lookup k = none →
        matchesFilter conds payload = false) ∧
    (∀ (conds payload : List (String × Json)) (k : String) (v w : Json),
        (k, v) ∈ conds → payload.lookup k = some w → Json.beq w v = false →
        matchesFilter conds payload = false) ∧
    (∀ (db : WebhookDB) (event_type : String) (payload : List (String × Json))
        (ep : WebhookEndpoint) (sub : WebhookSubscription),
        (ep, sub) ∈ resolve db event_type payload →
        subscriptionMatches sub payload = true) ∧
    matchesFilter [("level", Json.str "ERROR")] [("level", Json.str "INFO")] = false := by
  refine ⟨?_, ?_, ?_, rfl⟩
  · intro conds payload k v hmem hlook
    cases hall : matchesFilter conds payload with
    | false => rfl
    | true =>
      exfalso
      unfold matchesFilter at hall
      have hpt := List.all_eq_true.mp hall (k, v) hmem
      simp [hlook] at hpt
  · intro conds payload k v w hmem hlook hbeq
    cases hall : matchesFilter conds payload with
    | false => rfl
    | true =>
      exfalso
      unfold matchesFilter at hall
      have hpt := List.all_eq_true.mp hall (k, v) hmem
      simp [hlook, hbeq] at hpt
  · intro db event_type payload ep sub hmem
    unfold resolve at hmem
    rcases List.mem_filterMap.mp hmem with ⟨s, hs, hmap⟩
    rcases List.mem_filter.mp hs with ⟨-, hpred⟩
    split at hmap
    · rcases Option.some.inj hmap with h
      cases h
      simp only [Bool.and_eq_true] at hpred
      exact hpred.2
    · exact Option.noConfusion hmap

/-- Witness for `filter_eval_never_errors`: the condition on `level`
does not match the empty payload. -/
theorem filter_eval_never_errors_witness :
    matchesFilter [("level", Json.str "ERROR")] [] = false :=
  filter_eval_never_errors.1 [("level", Json.str "ERROR")] [] "level" (Json.str "ERROR")
    (List.mem_singleton_self _) rfl

/-- C7: deleting an endpoint removes its row and, through the declared
`ondelete=CASCADE` foreign keys, every subscription and delivery row
referencing it; a referentially consistent store stays consistent, so
no dangling endpoint reference remains. -/
theorem delete_endpoint_cascades (db : WebhookDB) (eid : Nat) :
    (∀ e ∈ (deleteEndpoint db eid).endpoints, e.id ≠ eid) ∧
    (∀ s ∈ (deleteEndpoint db eid).subscriptions, s.endpoint_id ≠ eid) ∧
    (∀ d ∈ (deleteEndpoint db eid).deliveries, d.endpoint_id ≠ eid) ∧
    (db.consistent → (deleteEndpoint db eid).consistent) := by
  refine ⟨?_, ?_, ?_, ?_⟩
  · intro e he
    have h := (List.mem_filter.mp he).2
    simpa using h
  · intro s hs
    have h := (List.mem_filter.mp hs).2
    simpa using h
  · intro d hd
    have h := (List.mem_filter.mp hd).2
    simpa using h
  · rintro ⟨hs, hd⟩
    constructor
    · intro s hsmem
      have hmem := (List.mem_filter.mp hsmem).1
      have hne := (List.mem_filter.mp hsmem).2
      rcases hs s hmem with ⟨e, he, heq⟩
      refine ⟨e, List.mem_filter.mpr ⟨he, ?_⟩, heq⟩
      simp only [bne_iff_ne] at hne ⊢
      omega
    · intro dl hdmem
      have hmem := (List.mem_filter.mp hdmem).1
      have hne := (List.mem_filter.mp hdmem).2
      rcases hd dl hmem with ⟨e, he, heq⟩
      refine ⟨e, List.mem_filter.mpr ⟨he, ?_⟩, heq⟩
      simp only [bne_iff_ne] at hne ⊢
      omega

/-- Witness for `delete_endpoint_cascades`: deleting endpoint 1 from the
sample store leaves a referentially consistent store. -/
theorem delete_endpoint_cascades_witness :
    (deleteEndpoint sampleDB 1).consistent :=
  (delete_endpoint_cascades sampleDB 1).2.2.2 (by
    unfold WebhookDB.consistent
    decide)

/-- C8: every endpoint reachable through creation, the typed update API
and the Health Tracker has one of the three statuses `active`,
`inactive`, `failed`, and an endpoint created without an explicit status
(the create schema has no status field) starts `active`. -/
theorem endpoint_status_enum_default_active :
    (∀ e, EndpointReachable e → isWebhookStatusValue e.status = true) ∧
    (∀ (c : WebhookEndpointCreate) (id now : Nat) (creator : Option String),
        (mkWebhookEndpoint c id now creator).status = WebhookStatus.active.value) := by
  constructor
  · intro e h
    induction h with
    | create c id now creator => rfl
    | update u now e _ ih =>
      unfold applyEndpointUpdate
      cases hu : u.status with
      | none => simpa [hu] using ih
      | some s => cases s <;> simp [hu, WebhookStatus.value, isWebhookStatusValue]
    | disable e _ _ => rfl
  · intro c id now creator
    rfl

/-- Witness for `endpoint_status_enum_default_active`: a freshly created
endpoint carries a valid status. -/
theorem endpoint_status_enum_default_active_witness :
    isWebhookStatusValue
      (mkWebhookEndpoint { name := "alerts", url := "http://example.com/hook" } 1 0 none).status
      = true :=
  endpoint_status_enum_default_active.1 _ (EndpointReachable.create _ 1 0 none)

/-- C4 counterexample: the stored status of a delivery/event record is
an unconstrained string — the `WebhookEventUpdate` schema types `status`
as `Optional[str]`, so applying an update carrying the status
`"canceled"` stores a value outside
{pending, success, failed, retrying}. -/
theorem delivery_status_free_string_cex :
    isDeliveryStatusValue (applyEventUpdate { status := some "canceled" }
      { id := 1, event_type := "audit.event", payload := [],
        target_url := "http://example.com/hook" }).status = false := rfl

/-- C4 (amended): the delivery-status enum comprises exactly `pending`,
`success`, `failed`, `retrying`; a record created by the Dispatcher
starts `pending`, and every status the modelled lifecycle
(`on_failure`, `on_success`) assigns stays in the enum. -/
theorem delivery_status_lifecycle_enum :
    (∀ s : WebhookDeliveryStatus, isDeliveryStatusValue s.value = true) ∧
    (∀ (ep : WebhookEndpoint) (et : String) (p : List (String × Json)) (now : Nat),
        (mkDeliveryAttempt ep et p now).status = WebhookDeliveryStatus.pending.value) ∧
    (∀ (base maxDelay : Nat) (ep : WebhookEndpoint) (now : Nat) (d : DeliveryAttempt),
        isDeliveryStatusValue (on_failure base maxDelay ep now d).1.status = true) ∧
    (∀ (now : Nat) (code : Int) (body : String) (d : DeliveryAttempt),
        isDeliveryStatusValue (on_success now code body d).1.status = true) := by
  refine ⟨?_, ?_, ?_, ?_⟩
  · intro s
    cases s <;> rfl
  · intro ep et p now
    rfl
  · intro base maxDelay ep now d
    unfold on_failure
    by_cases hc : d.attempt_count < ep.retry_count
    · rw [if_pos hc]
      rfl
    · rw [if_neg hc]
      rfl
  · intro now code body d
    rfl


/-- C9: `safe_parse_json` is total — on a string that parses as JSON it
returns the parsed value, and on a string that fails to parse it returns
the supplied default when that default is not None, and an empty object
otherwise; illustrated on concrete inputs. -/
theorem safe_parse_json_total_default (s : String) (dflt : Option Json) :
    (∀ v, parseJson s = some v → safe_parse_json s dflt = v) ∧
    (parseJson s = none → ∀ d, dflt = some d → safe_parse_json s dflt = d) ∧
    (parseJson s = none → safe_parse_json s none = Json.obj []) ∧
    safe_parse_json "[1, true, null]" none
      = Json.arr [Json.num 1, Json.bool true, Json.null] ∧
    safe_parse_json "not json" none = Json.obj [] := by
  refine ⟨?_, ?_, ?_, rfl, rfl⟩
  · intro v hv
    unfold safe_parse_json
    rw [hv]
  · intro hn d hd
    unfold safe_parse_json
    rw [hn, hd]
  · intro hn
    unfold safe_parse_json
    rw [hn]

/-- Witness for `safe_parse_json_total_default`: an unparseable string
with a non-None default returns that default. -/
theorem safe_parse_json_total_default_witness :
    safe_parse_json "not json" (some (Json.str "fallback")) = Json.str "fallback" :=
  (safe_parse_json_total_default "not json" (some (Json.str "fallback"))).2.1 rfl
    (Json.str "fallback") rfl

/-- Helper: a digit character built from a value below ten is a digit
with the expected code point. -/
theorem digit_char_facts : ∀ m, m < 10 →
    (Char.ofNat (48 + m)).isDigit = true ∧ (Char.ofNat (48 + m)).toNat = 48 + m := by decide

theorem parse2_pad2 (n : Nat) (rest : List Char) :
    parse2 (pad2Chars n ++ rest) = some (n % 100, rest) := by
  have f1 := digit_char_facts (n / 10 % 10) (by omega)
  have f2 := digit_char_facts (n % 10) (by omega)
  simp [pad2Chars, parse2, f1.1, f2.1, f1.2, f2.2]
  omega

theorem pad2Chars_ne_Z {c : Char} {n : Nat} (hc : c ∈ pad2Chars n) : c ≠ 'Z' := by
  have f1 := digit_char_facts (n / 10 % 10) (by omega)
  have f2 := digit_char_facts (n % 10) (by omega)
  simp [pad2Chars] at hc
  have hz : ('Z').toNat = 90 := rfl
  rcases hc with rfl | rfl
  · intro he
    rw [he] at f1
    omega
  · intro he
    rw [he] at f2
    omega

theorem fracChars_ne_Z {c : Char} {us : Nat} (hc : c ∈ fracChars us) : c ≠ 'Z' := by
  unfold fracChars at hc
  by_cases h : us = 0
  · rw [if_pos h] at hc
    simp at hc
  · rw [if_neg h] at hc
    simp only [List.mem_cons, List.mem_append] at hc
    rcases hc with rfl | hc | hc | hc
    · decide
    · exact pad2Chars_ne_Z hc
    · exact pad2Chars_ne_Z hc
    · exact pad2Chars_ne_Z hc

theorem offsetChars_ne_Z {c : Char} {off : Option Int} (hc : c ∈ offsetChars off) : c ≠ 'Z' := by
  cases off with
  | none => simp [offsetChars] at hc
  | some o =>
    simp only [offsetChars] at hc
    by_cases h : o < 0
    · rw [if_pos h] at hc
      simp only [List.mem_cons, List.mem_append] at hc
      rcases hc with rfl | hc | rfl | hc
      · decide
      · exact pad2Chars_ne_Z hc
      · decide
      · exact pad2Chars_ne_Z hc
    · rw [if_neg h] at hc
      simp only [List.mem_cons, List.mem_append] at hc
      rcases hc with rfl | hc | rfl | hc
      · decide
      · exact pad2Chars_ne_Z hc
      · decide
      · exact pad2Chars_ne_Z hc

theorem isoChars_ne_Z (d : PyDatetime) : ∀ c ∈ isoChars d, c ≠ 'Z' := by
  intro c hc
  unfold isoChars at hc
  simp only [List.mem_append, List.mem_cons] at hc
  rcases hc with hc|hc|hc|hc|hc|hc|hc|hc|hc|hc|hc|hc|hc|hc
  all_goals
    first
      | exact pad2Chars_ne_Z hc
      | exact fracChars_ne_Z hc
      | exact offsetChars_ne_Z hc
      | (subst hc; decide)

theorem foldr_replaceZ_eq (l : List Char) (h : ∀ c ∈ l, c ≠ 'Z') :
    l.foldr
      (fun c acc => if c = 'Z' then '+' :: '0' :: '0' :: ':' :: '0' :: '0' :: acc else c :: acc)
      [] = l := by
  induction l with
  | nil => rfl
  | cons c cs ih =>
    have hc := h c (List.mem_cons_self c cs)
    simp only [List.foldr, if_neg hc]
    rw [ih (fun x hx => h x (List.mem_cons_of_mem c hx))]

theorem replaceZ_eq_self (s : String) (h : ∀ c ∈ s.data, c ≠ 'Z') : replaceZ s = s := by
  unfold replaceZ
  rw [foldr_replaceZ_eq s.data h]

theorem parse2_pad2_nil (n : Nat) : parse2 (pad2Chars n) = some (n % 100, []) := by
  have h := parse2_pad2 n []
  simpa using h

theorem parseOffset_offsetChars (off : Option Int)
    (h : ∀ o, off = some o → -1440 < o ∧ o < 1440) :
    parseOffset (offsetChars off) = some (off, []) := by
  cases off with
  | none => rfl
  | some o =>
    have hb := h o rfl
    simp only [offsetChars]
    by_cases hneg : o < 0
    · rw [if_pos hneg]
      simp only [parseOffset, parse2_pad2, parse2_pad2_nil, expectChar, if_true]
      have h60 : (-o).toNat / 60 % 100 = (-o).toNat / 60 := by omega
      have h60b : (-o).toNat % 60 % 100 = (-o).toNat % 60 := by omega
      rw [h60, h60b]
      rw [if_pos (by omega)]
      have hdm : (-o).toNat / 60 * 60 + (-o).toNat % 60 = (-o).toNat := by omega
      rw [hdm]
      simp only [Option.some.injEq, Prod.mk.injEq]
      refine ⟨?_, trivial⟩
      simp only [Int.ofNat_eq_coe]
      omega
    · rw [if_neg hneg]
      simp only [parseOffset, parse2_pad2, parse2_pad2_nil, expectChar, if_true]
      have h60 : o.toNat / 60 % 100 = o.toNat / 60 := by omega
      have h60b : o.toNat % 60 % 100 = o.toNat % 60 := by omega
      rw [h60, h60b]
      rw [if_pos (by omega)]
      have hdm : o.toNat / 60 * 60 + o.toNat % 60 = o.toNat := by omega
      rw [hdm]
      simp only [Option.some.injEq, Prod.mk.injEq]
      refine ⟨?_, trivial⟩
      simp only [Int.ofNat_eq_coe]
      omega

theorem daysInMonth_le_31 (y m : Nat) : daysInMonth y m ≤ 31 := by
  unfold daysInMonth
  split
  · split <;> omega
  · split <;> omega

theorem fromisoformat_isoChars (d : PyDatetime) (h : d.valid = true) :
    fromisoformat (isoChars d) = some d := by
  obtain ⟨y, mo, dy, hh, mi, ss, us, off⟩ := d
  have hv := h
  simp only [PyDatetime.valid, Bool.and_eq_true, decide_eq_true_eq] at h
  obtain ⟨⟨⟨⟨⟨⟨⟨⟨⟨⟨ha, hb⟩, hc⟩, hd2⟩, he⟩, hf⟩, hg⟩, hh2⟩, hi⟩, hj⟩, hk⟩ := h
  have hoff : ∀ o, off = some o → -1440 < o ∧ o < 1440 := by
    intro o ho
    subst ho
    simp only [Bool.and_eq_true, decide_eq_true_eq] at hk
    exact hk
  have hdm31 : daysInMonth y mo ≤ 31 := daysInMonth_le_31 y mo
  have eY : y / 100 % 100 * 100 + y % 100 % 100 = y := by omega
  have eMO : mo % 100 = mo := by omega
  have eDY : dy % 100 = dy := by omega
  have eHH : hh % 100 = hh := by omega
  have eMI : mi % 100 = mi := by omega
  have eSS : ss % 100 = ss := by omega
  by_cases hus : us = 0
  · subst hus
    rcases off with _ | o
    · simp only [isoChars, fromisoformat, fracChars, offsetChars, parseOffset, parse2_pad2,
        parse2_pad2_nil, expectChar, List.cons_append, List.nil_append, List.append_assoc,
        List.append_nil, eq_self_iff_true, if_true, decide_True, Bool.true_or, Bool.or_true,
        mkValidDatetime]
      simp only [eY, eMO, eDY, eHH, eMI, eSS]
      rw [if_pos hv]
    · have hb2 := hoff o rfl
      by_cases hneg : o < 0
      · simp only [isoChars, fracChars, offsetChars, if_pos hneg, eq_self_iff_true, if_true,
          fromisoformat, parse2_pad2, parse2_pad2_nil, expectChar, List.cons_append,
          List.nil_append, List.append_assoc, List.append_nil, decide_True, Bool.true_or,
          Bool.or_true]
        split
        · next heq => simp at heq
        · have hoc : ('-' :: (pad2Chars ((-o).toNat / 60) ++ ':' :: pad2Chars ((-o).toNat % 60)))
              = offsetChars (some o) := by
            simp only [offsetChars, if_pos hneg]
          rw [hoc, parseOffset_offsetChars (some o) hoff]
          simp only [eY, eMO, eDY, eHH, eMI, eSS, eq_self_iff_true, if_true, mkValidDatetime]
          rw [if_pos hv]
      · simp only [isoChars, fracChars, offsetChars, if_neg hneg, eq_self_iff_true, if_true,
          fromisoformat, parse2_pad2, parse2_pad2_nil, expectChar, List.cons_append,
          List.nil_append, List.append_assoc, List.append_nil, decide_True, Bool.true_or,
          Bool.or_true]
        split
        · next heq => simp at heq
        · have hoc : ('+' :: (pad2Chars (o.toNat / 60) ++ ':' :: pad2Chars (o.toNat % 60)))
              = offsetChars (some o) := by
            simp only [offsetChars, if_neg hneg]
          rw [hoc, parseOffset_offsetChars (some o) hoff]
          simp only [eY, eMO, eDY, eHH, eMI, eSS, eq_self_iff_true, if_true, mkValidDatetime]
          rw [if_pos hv]
  · simp only [isoChars, fracChars, if_neg hus, fromisoformat, parse2_pad2, parse2_pad2_nil,
      parse6, expectChar, List.cons_append, List.nil_append, List.append_assoc, List.append_nil,
      eq_self_iff_true, if_true, decide_True, Bool.true_or, Bool.or_true]
    rw [parseOffset_offsetChars off hoff]
    have eUS : us / 10000 % 100 * 10000 + us / 100 % 100 % 100 * 100 + us % 100 % 100 = us := by
      omega
    simp only [eY, eMO, eDY, eHH, eMI, eSS, eUS, eq_self_iff_true, if_true, mkValidDatetime]
    rw [if_pos hv]

/-- C10: parsing the ISO-8601 serialization of any valid datetime
returns that datetime, and `parse_datetime` returns `None` rather than
raising for `None`, empty, out-of-range, or non-ISO input strings. -/
theorem parse_datetime_serialize_roundtrip (d : PyDatetime) (h : d.valid = true) :
    parse_datetime (some (serialize_datetime d)) = some d ∧
    parse_datetime none = none ∧
    parse_datetime (some "") = none ∧
    parse_datetime (some "2024-13-01T00:00:00") = none ∧
    parse_datetime (some "not a date") = none := by
  refine ⟨?_, rfl, rfl, rfl, rfl⟩
  have hstep : parse_datetime (some (serialize_datetime d))
      = if (serialize_datetime d).isEmpty then none
        else fromisoformat (replaceZ (serialize_datetime d)).data := rfl
  rw [hstep]
  rw [replaceZ_eq_self (serialize_datetime d) (by exact isoChars_ne_Z d)]
  rw [if_neg ?hne]
  case hne =>
    intro hemp
    have hstr := (String.isEmpty_iff (serialize_datetime d)).mp hemp
    have hdata : isoChars d = [] := congrArg String.data hstr
    simp [isoChars, pad2Chars] at hdata
  exact fromisoformat_isoChars d h

/-- Witness for `parse_datetime_serialize_roundtrip` at a concrete
aware datetime with microseconds. -/
theorem parse_datetime_serialize_roundtrip_witness :
    parse_datetime (some (serialize_datetime
      { year := 2024, month := 3, day := 7, hour := 15, minute := 2, second := 9,
        microsecond := 123, tzOffsetMinutes := some (-330) }))
      = some { year := 2024, month := 3, day := 7, hour := 15, minute := 2, second := 9,
               microsecond := 123, tzOffsetMinutes := some (-330) } :=
  (parse_datetime_serialize_roundtrip
    { year := 2024, month := 3, day := 7, hour := 15, minute := 2, second := 9,
      microsecond := 123, tzOffsetMinutes := some (-330) } (by decide)).1


set_option maxRecDepth 10000 in
/-- Sanity vector (FIPS 180-4): SHA-256 of the empty message. -/
theorem sha256_empty_vector :
    toHex (sha256Bytes [])
      = "e3b0c44298fc1c149afbf4c8996fb92427ae41e4649b934ca495991b7852b855" := rfl

set_option maxRecDepth 10000 in
/-- Sanity vector (FIPS 180-4): SHA-256 of the message `abc`. -/
theorem sha256_abc_vector :
    toHex (sha256Bytes (strBytes "abc"))
      = "ba7816bf8f01cfea414140de5dae2223b00361a396177a9cb410ff61f20015ad" := rfl

set_option maxRecDepth 40000 in
/-- Sanity vector (RFC 4231, test case 2) for HMAC-SHA256. -/
theorem hmac_rfc4231_case2 :
    hmacSignature "Jefe" "what do ya want for nothing?"
      = "5bdcc146bf60754e6a042426089575c75a003f089d2739839dec58b964ec3843" := rfl

set_option maxRecDepth 40000 in
/-- C1: with a configured secret, the outbound request's signature
header is the hex-encoded HMAC-SHA256 of the secret over the raw
serialized body; with no secret the request carries no signature header
(the custom headers not using the reserved name); and on concrete data
a tampered body yields a different signature. -/
theorem webhook_signature_header (ep : WebhookEndpoint) (body : String) :
    (∀ secret, ep.secret = some secret →
      (buildRequestHeaders ep body).lookup signatureHeaderName
        = some (toHex (hmacSha256 (strBytes secret) (strBytes body)))) ∧
    (ep.secret = none →
      (∀ kv ∈ ep.headers.getD [], kv.1 ≠ signatureHeaderName) →
      ∀ kv ∈ buildRequestHeaders ep body, kv.1 ≠ signatureHeaderName) ∧
    hmacSignature "secret" "AAA" ≠ hmacSignature "secret" "AAB" := by
  refine ⟨?_, ?_, by decide⟩
  · intro secret hs
    simp [buildRequestHeaders, hs, List.lookup, hmacSignature]
  · intro hnone hcust kv hkv
    simp only [buildRequestHeaders, hnone, List.nil_append, List.mem_cons] at hkv
    rcases hkv with rfl | hkv
    · decide
    · exact hcust kv hkv

/-- Witness for `webhook_signature_header`: a concrete endpoint with a
secret carries the signature header over a concrete body. -/
theorem webhook_signature_header_witness :
    (buildRequestHeaders
        { id := 2, name := "signed", url := "http://example.com/hook",
          secret := some "s3cr3t" } "payload").lookup signatureHeaderName
      = some (toHex (hmacSha256 (strBytes "s3cr3t") (strBytes "payload"))) :=
  (webhook_signature_header
    { id := 2, name := "signed", url := "http://example.com/hook",
      secret := some "s3cr3t" } "payload").1 "s3cr3t" rfl

end PlatformCore
